import Mathlib

/-!
Verification of the DistrictingAndTDA analysis scripts.

The repository holds two analysis scripts over a Pennsylvania precinct
graph: a benchmark script (PA_Functions.py) comparing cut-edge counts of
13 districting plans, and an exploration script (PA_Updaters.py) running a
1000-step recombination walk while collecting metric time series.  The
definitions below embed the data model and the operations of those scripts;
external library capabilities (the partition and updater abstractions and
the chain driver of the redistricting library) are modelled from the
specification of the capabilities the scripts rely on.
-/

namespace PAUpdaters

/-- An election as registered by the exploration script: a name and the two
vote-total columns interpreted as Democratic and Republican. -/
structure Election where
  name : String
  dem : String
  rep : String
deriving DecidableEq, Repr

/-- The declared election count of the exploration script (the script sets
this to 14 although only 3 election definitions are supplied). -/
def num_elections : Nat := 14

/-- The election names supplied by the exploration script. -/
def election_names : List String := ["PRES12", "PRES16", "SENW101216"]

/-- The vote-total column pairs supplied by the exploration script. -/
def election_columns : List (String × String) :=
  [("PRES12D", "PRES12R"), ("T16PRESD", "T16PRESR"), ("W101216D", "W101216R")]

/-- The election-construction comprehension of the exploration script:
for every index i below n it reads election_names at i and
election_columns at i.  An out-of-range index is a fatal lookup error,
modelled by none. -/
def buildElections (n : Nat) : Option (List Election) :=
  (List.range n).mapM (fun i =>
    match election_names.get? i, election_columns.get? i with
    | some nm, some cols => some ⟨nm, cols.1, cols.2⟩
    | _, _ => none)

/-- The elections value the exploration script constructs, iterating over
range num_elections with num_elections = 14. -/
def elections : Option (List Election) := buildElections num_elections

/-- One row of the boundary dataset loaded from the shapefile: the precinct
identifier column GEOID10 and the county identifier column COUNTYFP10 (the
two columns the county-split computation reads). -/
structure Row where
  geoid : String
  county : String
deriving DecidableEq, Repr

/-- The distinct county identifiers of the boundary dataset, in order of
first appearance (the groups of the groupby on COUNTYFP10). -/
def countyIds (rows : List Row) : List String := (rows.map Row.county).dedup

/-- The number of distinct values a county group carries in an assignment
column (pandas nunique of the column restricted to the rows of county c),
where the column is given as one value per row in row order. -/
def nuniqueAt (rows : List Row) (col : List Nat) (c : String) : Nat :=
  ((((rows.zip col).filter (fun rc => rc.1.county == c)).map (fun rc => rc.2)).dedup).length

/-- The groupby-count of the county-split computation: the number of county
groups whose column carries more than one distinct value. -/
def splitsOfColumn (rows : List Row) (col : List Nat) : Nat :=
  (countyIds rows).countP (fun c => decide (1 < nuniqueAt rows col c))

/-- num_splits of the exploration script as a value: it materialises the
current column by mapping the partition assignment over the GEOID10 column
and counts the counties whose precincts carry more than one distinct
district value. -/
def num_splits (rows : List Row) (assignment : String → Nat) : Nat :=
  splitsOfColumn rows (rows.map (fun r => assignment r.geoid))

/-- The district values the precincts of county c carry under an
assignment (before deduplication). -/
def countyDistricts (rows : List Row) (assignment : String → Nat) (c : String) : List Nat :=
  (rows.filter (fun r => r.county == c)).map (fun r => assignment r.geoid)

/-- The mutable state the county-split computation touches: the loaded
graph, the partition under evaluation, and the boundary dataset with its
fixed columns (rows) and the optional attached current column. -/
structure ScriptState (G P : Type) where
  graph : G
  partition : P
  rows : List Row
  current : Option (List Nat)
deriving DecidableEq, Repr

/-- num_splits of the exploration script as a state transformer: it
overwrites the entire current column of the boundary dataset with the
mapped assignment, counts the split counties from that column, and leaves
the column attached.  Returns the count and the state after the call. -/
def num_splitsRun {G P : Type} (st : ScriptState G P) (assignment : String → Nat) :
    Nat × ScriptState G P :=
  let col := st.rows.map (fun r => assignment r.geoid)
  (splitsOfColumn st.rows col, { st with current := some col })

/-- A partition of the exploration script, carrying the cached outputs of
its registered updaters (per-district population tallies, the cut-edge set,
the per-district Democratic vote shares of the three election results) and
the node-to-district assignment keyed by GEOID10. -/
structure ExpPart where
  population : List Nat
  cut_edges : List (Nat × Nat)
  pres12 : List ℚ
  pres16 : List ℚ
  senw : List ℚ
  assignment : String → Nat

/-- The walk length the exploration script configures. -/
def total_steps : Nat := 1000

/-- Modelled from the spec: one transition of the external random-walk
driver.  A proposed partition replaces the current one exactly when it
passes every constraint and the acceptance rule takes it; otherwise the
chain stays at the current partition. -/
def chainStep {P : Type} (is_valid accept : P → Bool) (current proposed : P) : P :=
  if is_valid proposed && accept proposed then proposed else current

/-- Modelled from the spec: the sequence of partitions the external
random-walk driver yields, given the stream of proposals it draws.  The
first yielded state is the initial partition and each later yield is one
chainStep from its predecessor, so a walk of n proposals yields n + 1
partitions. -/
def chainStates {P : Type} (is_valid accept : P → Bool) (init : P) :
    List P → List P
  | [] => [init]
  | p :: ps => init :: chainStates is_valid accept (chainStep is_valid accept init p) ps

/-- The acceptance rule the exploration script passes to the driver. -/
def always_accept (_ : ExpPart) : Bool := true

/-- The ideal per-district population of the exploration script: total
population across all districts divided by the district count. -/
def ideal_population (baseline : ExpPart) : ℚ :=
  ((baseline.population.sum : ℚ)) / ((baseline.population.length : ℚ))

/-- Modelled from the spec: the population constraint the exploration
script registers, holding when every district population lies within 2
percent of the ideal population of the initial partition. -/
def popBoundsOk (ideal : ℚ) (p : ExpPart) : Bool :=
  p.population.all (fun pop =>
    decide ((1 - 2 / 100) * ideal ≤ (pop : ℚ) ∧ (pop : ℚ) ≤ (1 + 2 / 100) * ideal))

/-- The compactness bound the exploration script registers: the cut-edge
count may not exceed twice the cut-edge count of the initial partition. -/
def compactness_bound (baseline p : ExpPart) : Bool :=
  decide (p.cut_edges.length ≤ 2 * baseline.cut_edges.length)

/-- The conjunction of the two constraints the exploration script passes to
the driver. -/
def exploration_constraints (baseline p : ExpPart) : Bool :=
  popBoundsOk (ideal_population baseline) p && compactness_bound baseline p

/-- The fifteen metric sequences the exploration script appends to inside
the chain loop, with the field names of the script. -/
structure MetricLists where
  pop_vec : List (List Nat)
  cut_vec : List Nat
  votesP12 : List (List ℚ)
  votesP16 : List (List ℚ)
  votesSenW : List (List ℚ)
  mmP12 : List ℚ
  mmP16 : List ℚ
  mmSenW : List ℚ
  egP12 : List ℚ
  egP16 : List ℚ
  egSenW : List ℚ
  hmsP12 : List (List ℚ)
  hmsP16 : List (List ℚ)
  hmsSenW : List (List ℚ)
  splits : List Nat

/-- The empty metric sequences the script initialises before the loop. -/
def emptyMetricLists : MetricLists :=
  ⟨[], [], [], [], [], [], [], [], [], [], [], [], [], [], []⟩

/-- One iteration of the chain loop of the exploration script: for the
visited partition it appends the county-split count, the sorted population
list, the cut-edge count, the sorted and the raw Democratic vote shares of
the three elections, and the mean-median and efficiency-gap scores of the
three elections (mm and eg are the scalar metrics of the external library,
taken as parameters). -/
def stepCollect (mm eg : List ℚ → ℚ) (rows : List Row) (s : MetricLists)
    (part : ExpPart) : MetricLists :=
  { pop_vec := s.pop_vec ++ [List.insertionSort (· ≤ ·) part.population]
    cut_vec := s.cut_vec ++ [part.cut_edges.length]
    votesP12 := s.votesP12 ++ [List.insertionSort (· ≤ ·) part.pres12]
    votesP16 := s.votesP16 ++ [List.insertionSort (· ≤ ·) part.pres16]
    votesSenW := s.votesSenW ++ [List.insertionSort (· ≤ ·) part.senw]
    mmP12 := s.mmP12 ++ [mm part.pres12]
    mmP16 := s.mmP16 ++ [mm part.pres16]
    mmSenW := s.mmSenW ++ [mm part.senw]
    egP12 := s.egP12 ++ [eg part.pres12]
    egP16 := s.egP16 ++ [eg part.pres16]
    egSenW := s.egSenW ++ [eg part.senw]
    hmsP12 := s.hmsP12 ++ [part.pres12]
    hmsP16 := s.hmsP16 ++ [part.pres16]
    hmsSenW := s.hmsSenW ++ [part.senw]
    splits := s.splits ++ [num_splits rows part.assignment] }

/-- The chain loop of the exploration script: fold the per-step collection
over the partitions the driver yields. -/
def runCollect (mm eg : List ℚ → ℚ) (rows : List Row) (parts : List ExpPart) :
    MetricLists :=
  parts.foldl (stepCollect mm eg rows) emptyMetricLists

/-- The lengths of the fifteen metric sequences, in the declaration order
of the script. -/
def metricSequenceLengths (s : MetricLists) : List Nat :=
  [s.pop_vec.length, s.cut_vec.length,
   s.votesP12.length, s.votesP16.length, s.votesSenW.length,
   s.mmP12.length, s.mmP16.length, s.mmSenW.length,
   s.egP12.length, s.egP16.length, s.egSenW.length,
   s.hmsP12.length, s.hmsP16.length, s.hmsSenW.length,
   s.splits.length]

/-- A one-precinct sample state used to evaluate the county-split
computation on concrete data: one boundary row, no current column
attached (the load-time state of the dataset). -/
def sampleState : ScriptState Nat Nat :=
  ⟨0, 0, [⟨"g1", "c1"⟩], none⟩

/-- A two-district sample partition with balanced populations and no cut
edges, used to evaluate the chain on concrete data. -/
def samplePart : ExpPart :=
  ⟨[10, 10], [], [], [], [], fun _ => 0⟩

end PAUpdaters

namespace PAFunctions

/-- Modelled from the spec: the cut-edge updater of the external library,
the adjacency edges whose endpoints fall in different districts under the
assignment. -/
def cut_edges (edges : List (Nat × Nat)) (assignment : Nat → Nat) : List (Nat × Nat) :=
  edges.filter (fun e => !(assignment e.1 == assignment e.2))

/-- cut_edges_metric of the benchmark script: the cardinality of the
cut-edge updater output of a partition. -/
def cut_edges_metric (edges : List (Nat × Nat)) (assignment : Nat → Nat) : Nat :=
  (cut_edges edges assignment).length

/-- The election names registered by the benchmark script. -/
def election_names : List String := ["PRES12", "PRES16", "SENW101216"]

/-- The keys of the updater registry the benchmark script attaches to every
partition: the population tally, the cut-edge tracker, and one election
updater per registered election name. -/
def updaterKeys : List String := ["population", "cut_edges"] ++ election_names

/-- The literal partition key the eg_metric function of the benchmark
script reads. -/
def egKey : String := "whatever-goes-here"

/-- A partition of the benchmark script viewed through its updater mapping:
looking up a registered updater name yields its cached value, looking up
any other key is a missing-key error, modelled by none. -/
structure BPartition (V : Type) where
  updaters : String → Option V

/-- A partition built with a given updater registry: exactly the registered
keys resolve. -/
def fromUpdaterRegistry {V : Type} (keys : List String) (vals : String → V) :
    BPartition V :=
  ⟨fun k => if k ∈ keys then some (vals k) else none⟩

/-- eg_metric of the benchmark script: it reads the election result stored
under the literal key and applies the efficiency-gap scalar of the external
library (taken as the parameter egFun); a missing key propagates as
none. -/
def eg_metric {V : Type} (egFun : V → ℚ) (p : BPartition V) : Option ℚ :=
  (p.updaters egKey).map egFun

/-- The updater keys the executed statements of the benchmark script
access: the 13 report prints and the plotted series all call
cut_edges_metric, which reads the cut_edges updater, and no executed
statement reads any other updater or calls eg_metric. -/
def accessedKeys : List String := ["cut_edges"]

/-- The number of tree-generated comparison plans of the benchmark
script. -/
def tree_plans : Nat := 5

/-- The number of named historical and proposed plans of the benchmark
script. -/
def n_base_plans : Nat := 8

/-- One token of a printed line (Python print renders its arguments
space-separated, so a line is faithfully modelled as its argument list). -/
inductive PrintTok where
  | str (s : String)
  | num (n : Nat)
deriving DecidableEq, Repr

/-- A named-plan report line of the benchmark script, print with three
arguments. -/
def namedPlanLine (plan : String) (n : Nat) : List PrintTok :=
  [.str ("The " ++ plan ++ " plan has"), .num n, .str ("cut edges.")]

/-- A tree-plan report line of the benchmark script, print with four
arguments. -/
def treePlanLine (k : Nat) (n : Nat) : List PrintTok :=
  [.str ("Tree plan"), .num k, .str ("cut edges:"), .num n]

/-- The plan names of the eight named-plan report lines, in print order. -/
def planNames : List String :=
  ["2011", "GOV", "TS", "REMEDIAL", "538 Compact", "538 DEM", "538 GOP", "8th grade"]

/-- The comparison report of the benchmark script: one named-plan line per
named partition (given their cut-edge counts in order), then one tree-plan
line per tree partition with the index printed as i + 1. -/
def reportLines (namedCounts : List Nat) (treeCounts : Nat → Nat) :
    List (List PrintTok) :=
  (planNames.zip namedCounts).map (fun pc => namedPlanLine pc.1 pc.2) ++
  (List.range tree_plans).map (fun i => treePlanLine (i + 1) (treeCounts i))

/-- The categorical x-axis labels of the benchmark plot: the eight short
plan names followed by one label per tree plan. -/
def labels : List String :=
  ["2011", "GOV", "TS", "REMEDIAL", "CPCT", "DEM", "GOP", "8th"] ++
  (List.range tree_plans).map (fun k => "Tree" ++ toString (k + 1))

/-- One observable event of the tree-ensemble loop of the benchmark script:
the progress message for index i, or the generation of the i-th tree
partition. -/
inductive TreeEvent where
  | printedMsg (i : Nat)
  | generatedPlan (i : Nat)
deriving DecidableEq, Repr

/-- The event trace of a complete run of the tree-ensemble loop: for each i
the loop body first prints the progress message and then generates the
plan. -/
def treeLoopEvents : List TreeEvent :=
  ((List.range tree_plans).map
    (fun i => [TreeEvent.printedMsg i, TreeEvent.generatedPlan i])).flatten

/-- The event trace of a run on which generating the k-th plan fails: the
earlier iterations complete, and of iteration k only the print has
happened when the failure aborts the script. -/
def treeLoopEventsFailAt (k : Nat) : List TreeEvent :=
  (((List.range k).map
    (fun i => [TreeEvent.printedMsg i, TreeEvent.generatedPlan i])).flatten) ++
  [TreeEvent.printedMsg k]

end PAFunctions

/-- Claim C1: the exploration script registers the election definitions by
indexing election_names and election_columns over range num_elections; with
num_elections = 14 and only 3 supplied definitions the construction fails
with an out-of-range lookup at index 3, while a declared count of 3 would
register exactly the three defined elections. -/
theorem electionConstructionOutOfRange :
    PAUpdaters.elections = none ∧
    PAUpdaters.buildElections 3 =
      some [⟨"PRES12", "PRES12D", "PRES12R"⟩,
            ⟨"PRES16", "T16PRESD", "T16PRESR"⟩,
            ⟨"SENW101216", "W101216D", "W101216R"⟩] := by
  constructor
  · rfl
  · rfl

namespace PAUpdaters

/-- Materialising the current column and restricting it to a county group
reads back exactly the assignment values of the rows of that county. -/
theorem zip_mapCol_filter (rows : List Row) (f : Row → Nat) (c : String) :
    ((rows.zip (rows.map f)).filter (fun rc => rc.1.county == c)).map
        (fun rc => rc.2) =
      (rows.filter (fun r => r.county == c)).map f := by
  induction rows with
  | nil => rfl
  | cons r rs ih =>
    by_cases h : r.county == c
    · simp [List.filter_cons, h, ih]
    · simp [List.filter_cons, h, ih]

/-- num_splits counts the counties whose district values are not all
equal. -/
theorem num_splits_eq_countP (rows : List Row) (assignment : String → Nat) :
    num_splits rows assignment =
      (countyIds rows).countP
        (fun c => decide (1 < ((countyDistricts rows assignment c).dedup).length)) := by
  unfold num_splits splitsOfColumn
  have hpred : (fun c => decide (1 < nuniqueAt rows (rows.map (fun r => assignment r.geoid)) c)) =
      (fun c => decide (1 < ((countyDistricts rows assignment c).dedup).length)) := by
    funext c
    rw [nuniqueAt, countyDistricts, zip_mapCol_filter]
  rw [hpred]

/-- A list deduplicates to at most one element exactly when all its
elements are equal. -/
theorem dedup_length_le_one {α : Type} [DecidableEq α] (l : List α) :
    l.dedup.length ≤ 1 ↔ ∀ a ∈ l, ∀ b ∈ l, a = b := by
  constructor
  · intro h a ha b hb
    have ha2 : a ∈ l.dedup := List.mem_dedup.mpr ha
    have hb2 : b ∈ l.dedup := List.mem_dedup.mpr hb
    match hd : l.dedup with
    | [] => rw [hd] at ha2; cases ha2
    | [x] =>
      rw [hd] at ha2 hb2
      have hax : a = x := List.mem_singleton.mp ha2
      have hbx : b = x := List.mem_singleton.mp hb2
      rw [hax, hbx]
    | x :: y :: t => rw [hd] at h; simp at h
  · intro h
    match hd : l.dedup with
    | [] => simp [hd]
    | [x] => simp [hd]
    | x :: y :: t =>
      exfalso
      have hnd : (x :: y :: t).Nodup := by rw [← hd]; exact l.nodup_dedup
      have hx : x ∈ l := List.mem_dedup.mp
        (by rw [hd]; exact List.mem_cons_self x (y :: t))
      have hy : y ∈ l := List.mem_dedup.mp
        (by rw [hd]; exact List.mem_cons_of_mem x (List.mem_cons_self y t))
      have hxy : x = y := h x hx y hy
      rw [List.nodup_cons] at hnd
      exact hnd.1 (hxy ▸ List.mem_cons_self y t)

end PAUpdaters

/-- Claim C6: num_splits of the exploration script returns the number of
counties whose precincts carry more than one distinct district value; the
result is at least 0, at most the number of distinct county identifiers of
the boundary dataset, and equals 0 exactly when, within every county, all
precincts are assigned to a single district. -/
theorem num_splits_bounds (rows : List PAUpdaters.Row)
    (assignment : String → Nat) :
    0 ≤ PAUpdaters.num_splits rows assignment ∧
    PAUpdaters.num_splits rows assignment ≤ (PAUpdaters.countyIds rows).length ∧
    (PAUpdaters.num_splits rows assignment = 0 ↔
      ∀ r1 ∈ rows, ∀ r2 ∈ rows, r1.county = r2.county →
        assignment r1.geoid = assignment r2.geoid) := by
  refine ⟨Nat.zero_le _, ?_, ?_⟩
  · rw [PAUpdaters.num_splits_eq_countP]
    exact List.countP_le_length _
  · rw [PAUpdaters.num_splits_eq_countP, List.countP_eq_zero]
    constructor
    · intro h r1 h1 r2 h2 hc
      have hcmem : r1.county ∈ PAUpdaters.countyIds rows :=
        List.mem_dedup.mpr (List.mem_map_of_mem PAUpdaters.Row.county h1)
      have hle := h r1.county hcmem
      simp only [decide_eq_true_eq, Nat.not_lt] at hle
      have hall := (PAUpdaters.dedup_length_le_one _).mp hle
      refine hall (assignment r1.geoid) ?_ (assignment r2.geoid) ?_
      · exact List.mem_map_of_mem _
          (List.mem_filter.mpr ⟨h1, by simp⟩)
      · exact List.mem_map_of_mem _
          (List.mem_filter.mpr ⟨h2, by simp [hc]⟩)
    · intro h c hc
      simp only [decide_eq_true_eq, Nat.not_lt]
      refine (PAUpdaters.dedup_length_le_one _).mpr ?_
      intro a ha b hb
      rw [PAUpdaters.countyDistricts] at ha hb
      obtain ⟨r1, hr1, hr1e⟩ := List.mem_map.mp ha
      obtain ⟨r2, hr2, hr2e⟩ := List.mem_map.mp hb
      have h1 := List.mem_filter.mp hr1
      have h2 := List.mem_filter.mp hr2
      have hc1 : r1.county = c := by simpa using h1.2
      have hc2 : r2.county = c := by simpa using h2.2
      rw [← hr1e, ← hr2e]
      exact h r1 h1.1 r2 h2.1 (hc1.trans hc2.symm)

/-- Claim C7 counterexample: on concrete data the attachment of the
current column is not temporary: at load time the boundary dataset carries
no current column, and after num_splitsRun returns the column is still
attached, so the dataset is not back to its load-time state. -/
theorem countySplitMutationPersists :
    (PAUpdaters.num_splitsRun PAUpdaters.sampleState (fun _ => 1)).2.current =
      some [1] ∧
    PAUpdaters.sampleState.current = none := by
  constructor
  · rfl
  · rfl

/-- Claim C7 amended: the only mutation of the county-split computation is
to attach (or overwrite) the current column on the boundary dataset, and
that attachment persists after the computation returns; the graph, the
partition and every other column of the dataset are unchanged, and the
returned count is the pure num_splits value. -/
theorem countySplitOnlyCurrentColumn {G P : Type} (st : PAUpdaters.ScriptState G P)
    (assignment : String → Nat) :
    (PAUpdaters.num_splitsRun st assignment).2.graph = st.graph ∧
    (PAUpdaters.num_splitsRun st assignment).2.partition = st.partition ∧
    (PAUpdaters.num_splitsRun st assignment).2.rows = st.rows ∧
    (PAUpdaters.num_splitsRun st assignment).2.current =
      some (st.rows.map (fun r => assignment r.geoid)) ∧
    (PAUpdaters.num_splitsRun st assignment).1 =
      PAUpdaters.num_splits st.rows assignment := by
  exact ⟨rfl, rfl, rfl, rfl, rfl⟩

/-- Claim C9: num_splits is deterministic and state-independent although it
mutates the shared boundary dataset: calling it twice in a row returns the
same value, and the value it returns for an assignment does not depend on
whether it was called on another assignment beforehand, because every call
overwrites the entire current column before counting. -/
theorem numSplitsStateIndependent {G P : Type} (st : PAUpdaters.ScriptState G P)
    (p q : String → Nat) :
    (PAUpdaters.num_splitsRun (PAUpdaters.num_splitsRun st p).2 p).1 =
      (PAUpdaters.num_splitsRun st p).1 ∧
    (PAUpdaters.num_splitsRun (PAUpdaters.num_splitsRun st p).2 q).1 =
      (PAUpdaters.num_splitsRun st q).1 := by
  exact ⟨rfl, rfl⟩

namespace PAUpdaters

/-- The driver yields one more state than it draws proposals: the initial
partition plus one state per proposal. -/
theorem length_chainStates {P : Type} (is_valid accept : P → Bool)
    (proposals : List P) :
    ∀ init : P, (chainStates is_valid accept init proposals).length =
      proposals.length + 1 := by
  induction proposals with
  | nil => intro init; rfl
  | cons p ps ih =>
    intro init
    simp [chainStates, ih]

/-- Constraint preservation of the driver: when the initial state passes
the validity check, so does every yielded state, because a transition only
moves to a proposal that passes the check. -/
theorem mem_chainStates_valid {P : Type} (is_valid accept : P → Bool)
    (proposals : List P) :
    ∀ init : P, is_valid init = true →
      ∀ s ∈ chainStates is_valid accept init proposals, is_valid s = true := by
  induction proposals with
  | nil =>
    intro init h s hs
    rw [chainStates] at hs
    rw [List.mem_singleton.mp hs]
    exact h
  | cons p ps ih =>
    intro init h s hs
    rw [chainStates, List.mem_cons] at hs
    rcases hs with hs | hs
    · rw [hs]; exact h
    · refine ih (chainStep is_valid accept init p) ?_ s hs
      unfold chainStep
      by_cases hv : is_valid p && accept p
      · rw [if_pos hv]
        exact (Bool.and_eq_true _ _).mp hv |>.1
      · rw [if_neg hv]
        exact h

/-- Each metric sequence of the collector fold ends up as the pointwise
image of the visited partitions, for any projection that the per-step
collection extends by exactly one entry. -/
theorem foldl_stepCollect_proj {β : Type} (mm eg : List ℚ → ℚ) (rows : List Row)
    (g : MetricLists → List β) (f : ExpPart → β)
    (hg : ∀ s p, g (stepCollect mm eg rows s p) = g s ++ [f p]) :
    ∀ (parts : List ExpPart) (s : MetricLists),
      g (parts.foldl (stepCollect mm eg rows) s) = g s ++ parts.map f := by
  intro parts
  induction parts with
  | nil => intro s; simp
  | cons p ps ih =>
    intro s
    rw [List.foldl_cons, ih, hg, List.map_cons, List.append_assoc]
    rfl

end PAUpdaters

/-- Claim C3: every state the exploration chain yields, the initial one
included, satisfies both registered constraints: every district population
lies within 2 percent of the ideal population of the baseline, and the
cut-edge count does not exceed twice the cut-edge count of the baseline.
The hypothesis that the baseline itself passes the constraints is what the
external driver checks when the chain is constructed. -/
theorem chainConstraintsInvariant (baseline : PAUpdaters.ExpPart)
    (proposals : List PAUpdaters.ExpPart)
    (h : PAUpdaters.exploration_constraints baseline baseline = true) :
    ∀ p ∈ PAUpdaters.chainStates (PAUpdaters.exploration_constraints baseline)
        PAUpdaters.always_accept baseline proposals,
      (∀ pop ∈ p.population,
        (1 - 2 / 100) * PAUpdaters.ideal_population baseline ≤ (pop : ℚ) ∧
        (pop : ℚ) ≤ (1 + 2 / 100) * PAUpdaters.ideal_population baseline) ∧
      p.cut_edges.length ≤ 2 * baseline.cut_edges.length := by
  intro p hp
  have hv := PAUpdaters.mem_chainStates_valid _ _ proposals baseline h p hp
  unfold PAUpdaters.exploration_constraints at hv
  obtain ⟨h1, h2⟩ := (Bool.and_eq_true _ _).mp hv
  constructor
  · intro pop hpop
    unfold PAUpdaters.popBoundsOk at h1
    have := List.all_eq_true.mp h1 pop hpop
    exact of_decide_eq_true this
  · unfold PAUpdaters.compactness_bound at h2
    exact of_decide_eq_true h2

/-- Witness for C3 at a concrete two-district baseline and a one-proposal
walk. -/
theorem chainConstraintsInvariantWitness :
    (∀ pop ∈ PAUpdaters.samplePart.population,
      (1 - 2 / 100) * PAUpdaters.ideal_population PAUpdaters.samplePart ≤ (pop : ℚ) ∧
      (pop : ℚ) ≤ (1 + 2 / 100) * PAUpdaters.ideal_population PAUpdaters.samplePart) ∧
    PAUpdaters.samplePart.cut_edges.length ≤
      2 * PAUpdaters.samplePart.cut_edges.length :=
  chainConstraintsInvariant PAUpdaters.samplePart [PAUpdaters.samplePart]
    (by
      unfold PAUpdaters.exploration_constraints PAUpdaters.popBoundsOk
        PAUpdaters.compactness_bound PAUpdaters.ideal_population
        PAUpdaters.samplePart
      simp only [Bool.and_eq_true, decide_eq_true_eq, List.all_cons,
        List.all_nil, Bool.and_true, List.sum_cons, List.sum_nil,
        List.length_cons, List.length_nil]
      norm_num)
    PAUpdaters.samplePart (by simp [PAUpdaters.chainStates])

/-- Claim C2 counterexample: the chain loop of the exploration script
maintains fifteen metric sequences, not eleven. -/
theorem fifteenNotElevenSequences :
    (PAUpdaters.metricSequenceLengths PAUpdaters.emptyMetricLists).length = 15 ∧
    (PAUpdaters.metricSequenceLengths PAUpdaters.emptyMetricLists).length ≠ 11 := by
  constructor
  · rfl
  · decide

/-- Claim C2 amended: running the exploration walk (the driver is
configured for total_steps = 1000 yields, the initial state plus one state
per drawn proposal) appends exactly one entry per visited partition to
every one of the fifteen metric sequences, so each sequence has exactly
one entry per yielded state and entry i of every sequence is the metric of
the i-th visited partition. -/
theorem collectorRecordsEveryStep (mm eg : List ℚ → ℚ)
    (rows : List PAUpdaters.Row)
    (is_valid accept : PAUpdaters.ExpPart → Bool)
    (baseline : PAUpdaters.ExpPart) (proposals : List PAUpdaters.ExpPart) :
    PAUpdaters.total_steps = 1000 ∧
    (PAUpdaters.chainStates is_valid accept baseline proposals).length =
      proposals.length + 1 ∧
    PAUpdaters.metricSequenceLengths
        (PAUpdaters.runCollect mm eg rows
          (PAUpdaters.chainStates is_valid accept baseline proposals)) =
      List.replicate 15 (proposals.length + 1) ∧
    (PAUpdaters.runCollect mm eg rows
        (PAUpdaters.chainStates is_valid accept baseline proposals)).pop_vec =
      (PAUpdaters.chainStates is_valid accept baseline proposals).map
        (fun p => List.insertionSort (· ≤ ·) p.population) ∧
    (PAUpdaters.runCollect mm eg rows
        (PAUpdaters.chainStates is_valid accept baseline proposals)).cut_vec =
      (PAUpdaters.chainStates is_valid accept baseline proposals).map
        (fun p => p.cut_edges.length) ∧
    (PAUpdaters.runCollect mm eg rows
        (PAUpdaters.chainStates is_valid accept baseline proposals)).votesP12 =
      (PAUpdaters.chainStates is_valid accept baseline proposals).map
        (fun p => List.insertionSort (· ≤ ·) p.pres12) ∧
    (PAUpdaters.runCollect mm eg rows
        (PAUpdaters.chainStates is_valid accept baseline proposals)).votesP16 =
      (PAUpdaters.chainStates is_valid accept baseline proposals).map
        (fun p => List.insertionSort (· ≤ ·) p.pres16) ∧
    (PAUpdaters.runCollect mm eg rows
        (PAUpdaters.chainStates is_valid accept baseline proposals)).votesSenW =
      (PAUpdaters.chainStates is_valid accept baseline proposals).map
        (fun p => List.insertionSort (· ≤ ·) p.senw) ∧
    (PAUpdaters.runCollect mm eg rows
        (PAUpdaters.chainStates is_valid accept baseline proposals)).mmP12 =
      (PAUpdaters.chainStates is_valid accept baseline proposals).map
        (fun p => mm p.pres12) ∧
    (PAUpdaters.runCollect mm eg rows
        (PAUpdaters.chainStates is_valid accept baseline proposals)).mmP16 =
      (PAUpdaters.chainStates is_valid accept baseline proposals).map
        (fun p => mm p.pres16) ∧
    (PAUpdaters.runCollect mm eg rows
        (PAUpdaters.chainStates is_valid accept baseline proposals)).mmSenW =
      (PAUpdaters.chainStates is_valid accept baseline proposals).map
        (fun p => mm p.senw) ∧
    (PAUpdaters.runCollect mm eg rows
        (PAUpdaters.chainStates is_valid accept baseline proposals)).egP12 =
      (PAUpdaters.chainStates is_valid accept baseline proposals).map
        (fun p => eg p.pres12) ∧
    (PAUpdaters.runCollect mm eg rows
        (PAUpdaters.chainStates is_valid accept baseline proposals)).egP16 =
      (PAUpdaters.chainStates is_valid accept baseline proposals).map
        (fun p => eg p.pres16) ∧
    (PAUpdaters.runCollect mm eg rows
        (PAUpdaters.chainStates is_valid accept baseline proposals)).egSenW =
      (PAUpdaters.chainStates is_valid accept baseline proposals).map
        (fun p => eg p.senw) ∧
    (PAUpdaters.runCollect mm eg rows
        (PAUpdaters.chainStates is_valid accept baseline proposals)).hmsP12 =
      (PAUpdaters.chainStates is_valid accept baseline proposals).map
        (fun p => p.pres12) ∧
    (PAUpdaters.runCollect mm eg rows
        (PAUpdaters.chainStates is_valid accept baseline proposals)).hmsP16 =
      (PAUpdaters.chainStates is_valid accept baseline proposals).map
        (fun p => p.pres16) ∧
    (PAUpdaters.runCollect mm eg rows
        (PAUpdaters.chainStates is_valid accept baseline proposals)).hmsSenW =
      (PAUpdaters.chainStates is_valid accept baseline proposals).map
        (fun p => p.senw) ∧
    (PAUpdaters.runCollect mm eg rows
        (PAUpdaters.chainStates is_valid accept baseline proposals)).splits =
      (PAUpdaters.chainStates is_valid accept baseline proposals).map
        (fun p => PAUpdaters.num_splits rows p.assignment) := by
  have hproj := fun {β : Type} (g : PAUpdaters.MetricLists → List β)
    (f : PAUpdaters.ExpPart → β)
    (hg : ∀ s p, g (PAUpdaters.stepCollect mm eg rows s p) = g s ++ [f p]) =>
    PAUpdaters.foldl_stepCollect_proj mm eg rows g f hg
      (PAUpdaters.chainStates is_valid accept baseline proposals)
      PAUpdaters.emptyMetricLists
  have hlen := PAUpdaters.length_chainStates is_valid accept proposals baseline
  have h01 := hproj (fun s => s.pop_vec)
    (fun p => List.insertionSort (· ≤ ·) p.population) (fun s p => rfl)
  have h02 := hproj (fun s => s.cut_vec) (fun p => p.cut_edges.length)
    (fun s p => rfl)
  have h03 := hproj (fun s => s.votesP12)
    (fun p => List.insertionSort (· ≤ ·) p.pres12) (fun s p => rfl)
  have h04 := hproj (fun s => s.votesP16)
    (fun p => List.insertionSort (· ≤ ·) p.pres16) (fun s p => rfl)
  have h05 := hproj (fun s => s.votesSenW)
    (fun p => List.insertionSort (· ≤ ·) p.senw) (fun s p => rfl)
  have h06 := hproj (fun s => s.mmP12) (fun p => mm p.pres12) (fun s p => rfl)
  have h07 := hproj (fun s => s.mmP16) (fun p => mm p.pres16) (fun s p => rfl)
  have h08 := hproj (fun s => s.mmSenW) (fun p => mm p.senw) (fun s p => rfl)
  have h09 := hproj (fun s => s.egP12) (fun p => eg p.pres12) (fun s p => rfl)
  have h10 := hproj (fun s => s.egP16) (fun p => eg p.pres16) (fun s p => rfl)
  have h11 := hproj (fun s => s.egSenW) (fun p => eg p.senw) (fun s p => rfl)
  have h12 := hproj (fun s => s.hmsP12) (fun p => p.pres12) (fun s p => rfl)
  have h13 := hproj (fun s => s.hmsP16) (fun p => p.pres16) (fun s p => rfl)
  have h14 := hproj (fun s => s.hmsSenW) (fun p => p.senw) (fun s p => rfl)
  have h15 := hproj (fun s => s.splits)
    (fun p => PAUpdaters.num_splits rows p.assignment) (fun s p => rfl)
  simp only [PAUpdaters.emptyMetricLists, List.nil_append] at h01 h02 h03 h04 h05 h06 h07 h08 h09 h10 h11 h12 h13 h14 h15
  unfold PAUpdaters.runCollect
  refine ⟨rfl, hlen, ?_, h01, h02, h03, h04, h05, h06, h07, h08, h09, h10,
    h11, h12, h13, h14, h15⟩
  simp only [PAUpdaters.metricSequenceLengths, PAUpdaters.emptyMetricLists,
    h01, h02, h03, h04, h05, h06, h07, h08, h09, h10, h11, h12, h13, h14,
    h15, List.length_map, hlen]
  rfl

/-- Claim C8: cut_edges_metric of the benchmark script is invariant under
district relabeling: composing the assignment with any injective renaming
of district identifiers leaves the cut-edge count unchanged. -/
theorem cutEdgesMetricRelabel (edges : List (Nat × Nat)) (assignment : Nat → Nat)
    (f : Nat → Nat) (hf : Function.Injective f) :
    PAFunctions.cut_edges_metric edges (f ∘ assignment) =
      PAFunctions.cut_edges_metric edges assignment := by
  unfold PAFunctions.cut_edges_metric PAFunctions.cut_edges
  refine congrArg List.length ?_
  refine List.filter_congr ?_
  intro e he
  by_cases h : assignment e.1 = assignment e.2
  · simp [h]
  · have hf2 : f (assignment e.1) ≠ f (assignment e.2) := fun hfe => h (hf hfe)
    simp [h, hf2]

/-- Witness for C8 on a two-edge path graph and the successor renaming. -/
theorem cutEdgesMetricRelabelWitness :
    PAFunctions.cut_edges_metric [(0, 1), (1, 2)] (Nat.succ ∘ (fun n => n)) =
      PAFunctions.cut_edges_metric [(0, 1), (1, 2)] (fun n => n) :=
  cutEdgesMetricRelabel [(0, 1), (1, 2)] (fun n => n) Nat.succ
    (fun _ _ h => Nat.succ.inj h)

/-- Claim C5: the key the eg_metric function of the benchmark script reads
is not among the registered updater keys, it is not among the keys the
executed statements of the script access (eg_metric is never invoked), and
applying eg_metric to any partition built with the registered updater
registry fails with a missing-key lookup, modelled by none. -/
theorem egMetricDeadKey (V : Type) (vals : String → V) (egFun : V → ℚ) :
    (PAFunctions.egKey ∈ PAFunctions.updaterKeys → False) ∧
    (PAFunctions.egKey ∈ PAFunctions.accessedKeys → False) ∧
    PAFunctions.eg_metric egFun
      (PAFunctions.fromUpdaterRegistry PAFunctions.updaterKeys vals) = none := by
  refine ⟨by decide, by decide, ?_⟩
  unfold PAFunctions.eg_metric PAFunctions.fromUpdaterRegistry
  have h : ¬ (PAFunctions.egKey ∈ PAFunctions.updaterKeys) := by decide
  simp [h]

/-- Claim C10: in the tree-ensemble loop of the benchmark script the
progress message of index i is printed before the i-th tree partition is
generated, and on a run where generating the i-th plan fails the i-th
message has already been emitted while no i-th generation event has. -/
theorem treePrintBeforeGenerate :
    ∀ i, i < PAFunctions.tree_plans →
      (PAFunctions.treeLoopEvents.indexOf (PAFunctions.TreeEvent.printedMsg i) <
        PAFunctions.treeLoopEvents.indexOf (PAFunctions.TreeEvent.generatedPlan i)) ∧
      PAFunctions.TreeEvent.printedMsg i ∈ PAFunctions.treeLoopEventsFailAt i ∧
      ((PAFunctions.TreeEvent.generatedPlan i ∈ PAFunctions.treeLoopEventsFailAt i) →
        False) := by decide

/-- Witness for C10 at the middle loop index. -/
theorem treePrintBeforeGenerateWitness :
    (PAFunctions.treeLoopEvents.indexOf (PAFunctions.TreeEvent.printedMsg 2) <
      PAFunctions.treeLoopEvents.indexOf (PAFunctions.TreeEvent.generatedPlan 2)) ∧
    PAFunctions.TreeEvent.printedMsg 2 ∈ PAFunctions.treeLoopEventsFailAt 2 ∧
    ((PAFunctions.TreeEvent.generatedPlan 2 ∈ PAFunctions.treeLoopEventsFailAt 2) →
      False) :=
  treePrintBeforeGenerate 2 (by decide)

/-- Claim C4 counterexample: the comparison report does print 13 lines, but
line 8 (the first tree-plan line) is print with four arguments ending in
the count, not a line of the form of the named-plan lines. -/
theorem treeLineNotNamedForm :
    (PAFunctions.reportLines (List.replicate 8 0) (fun _ => 0)).length = 13 ∧
    (PAFunctions.reportLines (List.replicate 8 0) (fun _ => 0))[8]? =
      some (PAFunctions.treePlanLine 1 0) ∧
    ((∃ plan n, PAFunctions.treePlanLine 1 0 = PAFunctions.namedPlanLine plan n) →
      False) := by
  refine ⟨by decide, by decide, ?_⟩
  rintro ⟨plan, n, h⟩
  have hlen := congrArg List.length h
  simp [PAFunctions.treePlanLine, PAFunctions.namedPlanLine] at hlen

/-- Claim C4 amended: with the 8 named cut-edge counts supplied, the
comparison report has exactly 13 lines; lines 0 to 7 are named-plan lines
of the form of print with three arguments, lines 8 to 12 are the tree-plan
lines with indices 1 to 5, and the categorical x-axis labels are exactly
the claimed thirteen strings in order. -/
theorem reportThirteenLines (namedCounts : List Nat) (treeCounts : Nat → Nat)
    (h : namedCounts.length = 8) :
    (PAFunctions.reportLines namedCounts treeCounts).length = 13 ∧
    (∀ i, i < 8 → ∃ plan n,
      (PAFunctions.reportLines namedCounts treeCounts)[i]? =
        some (PAFunctions.namedPlanLine plan n)) ∧
    (∀ i, i < 5 →
      (PAFunctions.reportLines namedCounts treeCounts)[8 + i]? =
        some (PAFunctions.treePlanLine (i + 1) (treeCounts i))) ∧
    PAFunctions.labels =
      ["2011", "GOV", "TS", "REMEDIAL", "CPCT", "DEM", "GOP", "8th",
       "Tree1", "Tree2", "Tree3", "Tree4", "Tree5"] := by
  have hzip : (PAFunctions.planNames.zip namedCounts).length = 8 := by
    simp [PAFunctions.planNames, h]
  have hL1 : ((PAFunctions.planNames.zip namedCounts).map
      (fun pc => PAFunctions.namedPlanLine pc.1 pc.2)).length = 8 := by
    simp [hzip]
  refine ⟨?_, ?_, ?_, ?_⟩
  · simp [PAFunctions.reportLines, hzip, PAFunctions.tree_plans]
  · intro i hi
    have hi2 : i < ((PAFunctions.planNames.zip namedCounts).map
        (fun pc => PAFunctions.namedPlanLine pc.1 pc.2)).length := by
      rw [hL1]; exact hi
    rw [PAFunctions.reportLines, List.getElem?_append, if_pos hi2,
      List.getElem?_eq_getElem hi2, List.getElem_map]
    exact ⟨_, _, rfl⟩
  · intro i hi
    have hge : ((PAFunctions.planNames.zip namedCounts).map
        (fun pc => PAFunctions.namedPlanLine pc.1 pc.2)).length ≤ 8 + i := by
      rw [hL1]; exact Nat.le_add_right 8 i
    rw [PAFunctions.reportLines, List.getElem?_append_right hge, hL1]
    have h8 : 8 + i - 8 = i := by omega
    rw [h8, List.getElem?_map]
    simp only [PAFunctions.tree_plans]
    rw [List.getElem?_range hi]
    rfl
  · decide

/-- Witness for C4 at concrete counts. -/
theorem reportThirteenLinesWitness :
    (PAFunctions.reportLines [1, 2, 3, 4, 5, 6, 7, 8] (fun _ => 9)).length = 13 ∧
    (∀ i, i < 8 → ∃ plan n,
      (PAFunctions.reportLines [1, 2, 3, 4, 5, 6, 7, 8] (fun _ => 9))[i]? =
        some (PAFunctions.namedPlanLine plan n)) ∧
    (∀ i, i < 5 →
      (PAFunctions.reportLines [1, 2, 3, 4, 5, 6, 7, 8] (fun _ => 9))[8 + i]? =
        some (PAFunctions.treePlanLine (i + 1) ((fun _ => 9) i))) ∧
    PAFunctions.labels =
      ["2011", "GOV", "TS", "REMEDIAL", "CPCT", "DEM", "GOP", "8th",
       "Tree1", "Tree2", "Tree3", "Tree4", "Tree5"] :=
  reportThirteenLines [1, 2, 3, 4, 5, 6, 7, 8] (fun _ => 9) (by decide)
